import Mathlib

/-!
Verification of the natural-language specification of the Ray Serve replica
request-handling engine (`src/python/ray/serve/_private/replica.py`) against
the source code, via a shallow embedding in Lean 4.

Each section embeds one part of the source:
* `RayServe.Wrap`    — `ReplicaActor._wrap_user_method_call` (lines 354-406)
* `RayServe.Drain`   — `ReplicaActor._drain_ongoing_requests` (lines 649-673)
* `RayServe.Lock`    — the reader/writer discipline between
                       `UserCallableWrapper.call_reconfigure` (lines 802-820)
                       and dispatch (`call_user_method`, lines 822-905), as an
                       interleaving transition system over asyncio atomic
                       segments (segments between `await` points)
* `RayServe.Dispatch` — `UserCallableWrapper._get_user_callable_method`
                       (718-739), `call_user_method` (822-905),
                       `call_user_method_generator` (907-954)
* `RayServe.Reconf`  — `UserCallableWrapper.call_reconfigure` (802-820) and
                       `ReplicaActor.reconfigure` (588-618)
* `RayServe.Destruct` — `UserCallableWrapper.call_destructor` (956-981)
-/

deriving instance DecidableEq for Except

namespace RayServe

/-! ## Wrap: the per-request envelope `_wrap_user_method_call`

Source (replica.py lines 354-406):
```
start_time = time.time()
user_exception = None
try:
    yield
except Exception as e:
    user_exception = e
    ...
latency_ms = ...
if user_exception is None: status_str = "OK"
elif isinstance(user_exception, asyncio.CancelledError): status_str = "CANCELLED"
else: status_str = "ERROR"
logger.info(access_log_msg(...))
self._metrics_manager.record_request_metrics(..., was_error=user_exception is not None)
if user_exception is not None: raise user_exception from None
```

Python exception model: in the Python versions Ray supports (>= 3.8),
`asyncio.CancelledError` derives from `BaseException`, *not* from
`Exception`, so `except Exception` does not catch it. -/

namespace Wrap

/-- Exceptions a wrapped user-method body can terminate with: the cooperative
cancellation signal (`asyncio.CancelledError`) or an ordinary exception. -/
inductive PyExc
  | cancelledError
  | exc (n : Nat)
deriving DecidableEq

/-- Python `isinstance(e, Exception)`: `asyncio.CancelledError` is a
`BaseException` that is not an `Exception` (Python >= 3.8). -/
def PyExc.isInstanceOfException : PyExc → Bool
  | .cancelledError => false
  | .exc _ => true

/-- Python `isinstance(e, asyncio.CancelledError)`. -/
def PyExc.isInstanceOfCancelledError : PyExc → Bool
  | .cancelledError => true
  | .exc _ => false

/-- Completion status strings used by the access log and metrics. -/
inductive Status
  | OK
  | CANCELLED
  | ERROR
deriving DecidableEq

/-- Observable effects of one pass through `_wrap_user_method_call`:
how many access-log records and metrics observations were emitted, which
status was logged (if any), the `was_error` flag recorded with the metrics
observation (if any), and the exception propagated to the caller (if any). -/
structure WrapTrace where
  accessLogRecords : Nat
  metricsRecords : Nat
  loggedStatus : Option Status
  wasErrorFlag : Option Bool
  raised : Option PyExc
deriving DecidableEq

/-- Embedding of `ReplicaActor._wrap_user_method_call` (replica.py 354-406),
as a function of the outcome of the wrapped body (`none` = the body returned
normally, `some e` = the body raised `e`).  The `except Exception` clause
catches `e` only when `isinstance(e, Exception)`; otherwise `e` propagates
out of the context manager before any of the bookkeeping code runs. -/
def wrap_user_method_call (bodyOutcome : Option PyExc) : WrapTrace :=
  match bodyOutcome with
  | none =>
      -- user_exception is None -> "OK"; one log record, one metrics record.
      { accessLogRecords := 1
        metricsRecords := 1
        loggedStatus := some Status.OK
        wasErrorFlag := some false
        raised := none }
  | some e =>
      if e.isInstanceOfException then
        -- caught by `except Exception`: bookkeeping runs, then re-raise.
        let status :=
          if e.isInstanceOfCancelledError then Status.CANCELLED else Status.ERROR
        { accessLogRecords := 1
          metricsRecords := 1
          loggedStatus := some status
          wasErrorFlag := some true
          raised := some e }
      else
        -- not caught: propagates before the latency/log/metrics code runs.
        { accessLogRecords := 0
          metricsRecords := 0
          loggedStatus := none
          wasErrorFlag := none
          raised := some e }

end Wrap

/-! ## Drain: `ReplicaActor._drain_ongoing_requests`

Source (replica.py 649-673):
```
wait_loop_period_s = self._deployment_config.graceful_shutdown_wait_loop_s
while True:
    await asyncio.sleep(wait_loop_period_s)
    num_ongoing_requests = self._metrics_manager.get_num_pending_and_running_requests()
    if num_ongoing_requests > 0:
        logger.info("Waiting for an additional ...")
    else:
        logger.info("Graceful shutdown complete; replica exiting.")
        break
```
The loop is driven by the successive values returned by
`get_num_pending_and_running_requests`; we embed it as a function of that
sample sequence (a finite prefix of the infinite run). -/

namespace Drain

/-- Events of one drain run, in order: a grace-period sleep, a sample of the
pending+running request count, the "waiting" log line, the final
"shutdown complete" log line. -/
inductive DrainEvent
  | sleep
  | sample (n : Nat)
  | logWait
  | logDone
deriving DecidableEq

/-- Embedding of `ReplicaActor._drain_ongoing_requests` (replica.py 649-673)
run against a finite prefix of the sample sequence: returns the events in
order and whether the loop returned within that prefix (`false` means the
loop was still running when the prefix was exhausted). -/
def drain_ongoing_requests : List Nat → List DrainEvent × Bool
  | [] => ([], false)
  | n :: rest =>
      if 0 < n then
        let t := drain_ongoing_requests rest
        (DrainEvent.sleep :: DrainEvent.sample n :: DrainEvent.logWait :: t.1, t.2)
      else
        ([DrainEvent.sleep, DrainEvent.sample n, DrainEvent.logDone], true)

/-- Events of the waiting cycles: each positive sample is preceded by a
grace-period sleep and followed by the "waiting" log line. -/
def waitCycleEvents : List Nat → List DrainEvent
  | [] => []
  | n :: rest =>
      DrainEvent.sleep :: DrainEvent.sample n :: DrainEvent.logWait ::
        waitCycleEvents rest

end Drain

/-! ## Lock: reconfigure vs. dispatch interleaving

`UserCallableWrapper` creates `self._rwlock = aiorwlock.RWLock()` (line 711).
`call_reconfigure` (802-820) runs `async with self._rwlock.writer` and then
`await reconfigure_method(user_config)` — the awaited user reconfigure body
spans suspension points, so it applies the new user config in more than one
atomic segment while the writer lock is held.  `call_user_method` (822-905)
and `call_user_method_generator` (907-954) acquire *no* lock: the reader side
of `_rwlock` is never used anywhere in the file.

We embed this as an interleaving transition system over asyncio atomic
segments.  Two tasks: a reconfigure (acquire writer; apply first half of
user config; apply second half; release) and one unary dispatch whose body
reads the handler's config-derived state in one atomic segment.  A schedule
is a list of task choices; running a schedule fails (returns `none`) if a
chosen task has no enabled step.

`stepCode` models the code as written (dispatch never waits for the lock);
`stepGuarded` models the spec's stated discipline (a dispatch step is only
enabled while the writer lock is free). -/

namespace Lock

/-- Task identifiers: the reconfigure task and the dispatch task. -/
inductive Tid
  | reconf
  | disp
deriving DecidableEq, Fintype

/-- Shared state: whether `call_reconfigure` currently holds
`_rwlock.writer`; the two halves of the user-visible config the user's
`reconfigure` method writes (`false` = old value, `true` = new value); the
reconfigure task's program counter; whether the dispatch has run; and what
the dispatch observed (writer-lock state and both config halves at the
moment its body ran). -/
structure St where
  writerHeld : Bool
  cfgA : Bool
  cfgB : Bool
  reconfPC : Fin 5
  dispDone : Bool
  obs : Option (Bool × Bool × Bool)
deriving DecidableEq

/-- The state space is finite (used to check the lock invariant by
exhaustive evaluation). -/
def stEquiv :
    (Bool × Bool × Bool × Fin 5 × Bool × Option (Bool × Bool × Bool)) ≃ St where
  toFun x := ⟨x.1, x.2.1, x.2.2.1, x.2.2.2.1, x.2.2.2.2.1, x.2.2.2.2.2⟩
  invFun s := ⟨s.writerHeld, s.cfgA, s.cfgB, s.reconfPC, s.dispDone, s.obs⟩
  left_inv := fun _ => rfl
  right_inv := fun _ => rfl

instance : Fintype St := Fintype.ofEquiv _ stEquiv

/-- Initial state: lock free, old config in both halves, nothing run yet. -/
def initSt : St :=
  { writerHeld := false, cfgA := false, cfgB := false,
    reconfPC := 0, dispDone := false, obs := none }

/-- One step of the code as written.  Reconfigure: acquire the writer lock
(blocks while held), write the first config half, write the second half,
release.  Dispatch (`call_user_method`): a single atomic body that acquires
no lock — its step is enabled regardless of `writerHeld`, because the source
never takes `_rwlock.reader`. -/
def stepCode (s : St) : Tid → Option St
  | Tid.reconf =>
      match (s.reconfPC : Nat) with
      | 0 => if s.writerHeld then none
             else some { s with writerHeld := true, reconfPC := 1 }
      | 1 => some { s with cfgA := true, reconfPC := 2 }
      | 2 => some { s with cfgB := true, reconfPC := 3 }
      | 3 => some { s with writerHeld := false, reconfPC := 4 }
      | _ => none
  | Tid.disp =>
      if s.dispDone then none
      else some { s with dispDone := true,
                         obs := some (s.writerHeld, s.cfgA, s.cfgB) }

/-- One step of the spec's intended discipline: identical to `stepCode`
except that the dispatch runs under shared (reader) access, so its step is
not enabled while the writer lock is held. -/
def stepGuarded (s : St) : Tid → Option St
  | Tid.reconf => stepCode s Tid.reconf
  | Tid.disp =>
      if s.dispDone ∨ s.writerHeld then none
      else some { s with dispDone := true,
                         obs := some (s.writerHeld, s.cfgA, s.cfgB) }

/-- Run a schedule (list of task choices) from a state; `none` if some
chosen task has no enabled step there. -/
def run (step : St → Tid → Option St) : St → List Tid → Option St
  | s, [] => some s
  | s, t :: rest =>
      match step s t with
      | some s' => run step s' rest
      | none => none

/-- A dispatch observation is consistent when it saw the writer lock free
and both config halves equal (fully-old or fully-new config). -/
def obsConsistent : Option (Bool × Bool × Bool) → Bool
  | none => true
  | some (w, a, b) => !w && (a == b)

/-- Invariant of the guarded system: config halves agree whenever the writer
lock is free, the lock/program-counter relationship holds, and any recorded
observation is consistent. -/
def guardedInv (s : St) : Bool :=
  obsConsistent s.obs &&
    (s.writerHeld == ((s.reconfPC : Nat) == 1 || (s.reconfPC : Nat) == 2 ||
      (s.reconfPC : Nat) == 3)) &&
    (!s.writerHeld → s.cfgA == s.cfgB) &&
    ((s.reconfPC : Nat) == 2 → s.cfgA) &&
    ((s.reconfPC : Nat) == 3 || (s.reconfPC : Nat) == 4 → s.cfgA && s.cfgB)

end Lock

/-! ## Dispatch: method resolution, unary and streaming dispatch

Embeds `UserCallableWrapper._get_user_callable_method` (replica.py 718-739),
`call_user_method` (822-905) and `call_user_method_generator` (907-954).

Python values relevant to dispatch are modelled by `RVal` (a plain value, a
synchronous generator object, or an asynchronous generator object); a user
method is modelled by its declared parameter list, its
`inspect.isgeneratorfunction` / `inspect.isasyncgenfunction` flags, and the
outcome of calling it (the value it produces after `sync_to_async` /
coroutine awaiting, or the exception it raises). -/

namespace Dispatch

/-- Constant `GRPC_CONTEXT_ARG_NAME` from `ray.serve._private.constants`
(module not under src/; the value is opaque to every claim). -/
def GRPC_CONTEXT_ARG_NAME : String := "grpc_context"

/-- Constant `RECONFIGURE_METHOD` from `ray.serve._private.constants`
(module not under src/; the name of the user reconfigure hook). -/
def RECONFIGURE_METHOD : String := "reconfigure"

/-- Result values a user method call can produce (after awaiting any
coroutine): a plain value, a synchronous generator object, or an
asynchronous generator object. -/
inductive RVal
  | plain (n : Nat)
  | genObj (xs : List Nat)
  | asyncGenObj (xs : List Nat)
deriving DecidableEq

/-- Python `inspect.isgenerator(result) or inspect.isasyncgen(result)`. -/
def RVal.isGeneratorObject : RVal → Bool
  | .plain _ => false
  | .genObj _ => true
  | .asyncGenObj _ => true

/-- A user method: its `__name__`, declared (bound) parameter names, shape
flags, and the outcome of invoking it (`Except.error n` models the method
raising user exception `n`). -/
structure UserMethod where
  name : String
  params : List String
  isGeneratorFunction : Bool
  isAsyncGenFunction : Bool
  outcome : Except Nat RVal
deriving DecidableEq

/-- One attribute of the user callable instance, as seen by `dir` /
`getattr` / `callable`: its name, whether it is callable, and (when
callable) the method it denotes. -/
structure PyAttr where
  name : String
  isCallable : Bool
  method : UserMethod
deriving DecidableEq

/-- The user callable instance held in `self._callable`: its attributes and
whether it `isinstance(..., ASGIAppReplicaWrapper)`. -/
structure UserCallable where
  attrs : List PyAttr
  isAsgiApp : Bool
deriving DecidableEq

/-- Python `getattr(self._callable, n)` (as an attribute lookup; `none` when
`hasattr` is false). -/
def getattrOpt (c : UserCallable) (n : String) : Option PyAttr :=
  c.attrs.find? (fun a => a.name = n)

/-- Python `dir(self._callable)`: the attribute names. -/
def dirAttrs (c : UserCallable) : List String :=
  c.attrs.map (fun a => a.name)

/-- Python `callable(getattr(self._callable, attr))`. -/
def isAttrCallable (c : UserCallable) (n : String) : Bool :=
  match getattrOpt c n with
  | some a => a.isCallable
  | none => false

/-- Embedding of the nested `callable_method_filter` (replica.py 724-730):
reject names with the `__` prefix, reject non-callable attributes, accept
the rest. -/
def callable_method_filter (c : UserCallable) (attr : String) : Bool :=
  if attr.startsWith "__" then false
  else if !isAttrCallable c attr then false
  else true

/-- The `methods` list built at replica.py 732: `dir` filtered through
`callable_method_filter`. -/
def availableMethods (c : UserCallable) : List String :=
  (dirAttrs c).filter (callable_method_filter c)

/-- Written from the spec's words, for comparison with `availableMethods`:
the handler's "public non-internal callable attributes" — attribute names
that are callable and are not internal (no `__` prefix). -/
def specPublicCallableAttrs (c : UserCallable) : List String :=
  (dirAttrs c).filter (fun n => isAttrCallable c n && !n.startsWith "__")

/-- Errors raised inside dispatch. `methodNotFound` carries the `methods`
list embedded in the `RayServeException` message (replica.py 733-737);
`usageErrorGeneratorFunction` / `usageErrorReturnedGenerator` are the two
unary `TypeError`s directing the caller to `stream=True` (858-862, 876-880);
`usageErrorNotAGenerator` is the streaming `TypeError` (951-954);
`arityError` is the Python `TypeError` for calling a method with more
positional arguments than it declares; `userExc` is an exception raised by
the user method body; `assertionFailed` models the `assert` statements. -/
inductive DispatchExc
  | methodNotFound (methods : List String)
  | usageErrorGeneratorFunction
  | usageErrorReturnedGenerator
  | usageErrorNotAGenerator
  | arityError
  | userExc (n : Nat)
  | assertionFailed
deriving DecidableEq

/-- The state of `UserCallableWrapper` needed by dispatch: `_is_function`,
the function method (returned directly when the deployment is a bare
function) and the callable instance. -/
structure UserCallableWrapper where
  is_function : Bool
  functionMethod : UserMethod
  callable : UserCallable
deriving DecidableEq

/-- Embedding of `UserCallableWrapper._get_user_callable_method`
(replica.py 718-739): bare functions resolve to themselves; otherwise an
absent attribute raises `RayServeException` listing `availableMethods`, and
a present attribute is returned by `getattr`. -/
def _get_user_callable_method (w : UserCallableWrapper) (method_name : String) :
    Except DispatchExc UserMethod :=
  if w.is_function then Except.ok w.functionMethod
  else
    match getattrOpt w.callable method_name with
    | none => Except.error (DispatchExc.methodNotFound (availableMethods w.callable))
    | some a => Except.ok a.method

/-- The subset of `RequestMetadata` consumed by dispatch. -/
structure RequestMetadata where
  is_http_request : Bool
  is_grpc_request : Bool
  call_method : String
  grpc_context : Nat
deriving DecidableEq

/-- Positional arguments flowing into a user method call: the raw ASGI
triple (given to ASGI-app handlers), the synthesized `starlette` `Request`
object (given to plain handlers on the HTTP path), a serialized
`gRPCRequest`, its deserialized payload, or a plain handle-call argument. -/
inductive PyArg
  | scope
  | receive
  | send
  | requestObj
  | grpcRequest (n : Nat)
  | grpcPayload (n : Nat)
  | plainArg (n : Nat)
deriving DecidableEq

/-- Invoke a user method with positional arguments.  Supplying more
positional arguments than the method declares raises a `TypeError` in
Python (fewer can be legal via defaults, so only over-supply is modelled);
otherwise the call produces the method's outcome. -/
def invokeMethod (m : UserMethod) (args : List PyArg) : Except DispatchExc RVal :=
  if m.params.length < args.length then Except.error DispatchExc.arityError
  else
    match m.outcome with
    | Except.ok v => Except.ok v
    | Except.error n => Except.error (DispatchExc.userExc n)

/-- Exceptions escaping `call_user_method` are wrapped by
`wrap_to_ray_error(function_name, e)` (replica.py 882-886), attaching the
resolved method's `__name__` (or `"unknown"` when resolution itself
raised). -/
structure WrappedErr where
  function_name : String
  exc : DispatchExc
deriving DecidableEq

/-- Return value of the unary path: the user result, or (on the gRPC path)
the protocol context paired with the serialized result (serialization by
the external protobuf `SerializeToString` is kept symbolic). -/
inductive UnaryReturn
  | val (v : RVal)
  | grpcPair (ctx : Nat) (v : RVal)
deriving DecidableEq

/-- Observable behaviour of one `call_user_method` dispatch: the positional
arguments actually passed to the user method (`none` when it was never
invoked), whether the gRPC context was injected as a keyword argument,
whether a synthesized 500 response was sent over ASGI (error path, HTTP
only), whether the successful result was sent over ASGI (plain-handler HTTP
success path), and the overall result. -/
structure UnaryResult where
  argsPassed : Option (List PyArg)
  ctxKwargPassed : Bool
  sent500 : Bool
  sentResultOverAsgi : Bool
  result : Except WrappedErr UnaryReturn
deriving DecidableEq

/-- Argument adaptation at the top of `call_user_method` (replica.py
838-850): HTTP requests carry `(scope, receive, send)` and are given to
ASGI-app handlers raw or to plain handlers as one `Request` object; gRPC
requests carry one `gRPCRequest` whose payload is deserialized; handle
calls pass through. -/
def adaptRequestArgs (w : UserCallableWrapper) (meta : RequestMetadata)
    (rawArgs : List PyArg) : List PyArg :=
  if meta.is_http_request then
    if w.callable.isAsgiApp then [PyArg.scope, PyArg.receive, PyArg.send]
    else [PyArg.requestObj]
  else if meta.is_grpc_request then
    match rawArgs with
    | [PyArg.grpcRequest n] => [PyArg.grpcPayload n]
    | _ => rawArgs
  else rawArgs

/-- Embedding of `UserCallableWrapper.call_user_method` (replica.py
822-905).  `kwargsCtx0` records whether the inbound `request_kwargs`
already carried the gRPC context keyword (always `false` for real
callers). -/
def call_user_method (w : UserCallableWrapper) (meta : RequestMetadata)
    (rawArgs : List PyArg) (kwargsCtx0 : Bool) : UnaryResult :=
  let adapted := adaptRequestArgs w meta rawArgs
  match _get_user_callable_method w meta.call_method with
  | Except.error e =>
      -- raised before `runner_method` was assigned: function_name "unknown";
      -- on the HTTP path a 500 response is synthesized and sent first.
      { argsPassed := none
        ctxKwargPassed := false
        sent500 := meta.is_http_request
        sentResultOverAsgi := false
        result := Except.error ⟨"unknown", e⟩ }
  | Except.ok m =>
      if m.isGeneratorFunction || m.isAsyncGenFunction then
        { argsPassed := none
          ctxKwargPassed := false
          sent500 := meta.is_http_request
          sentResultOverAsgi := false
          result := Except.error ⟨m.name, DispatchExc.usageErrorGeneratorFunction⟩ }
      else
        -- replica.py 866-872: drop the Request for zero-parameter HTTP
        -- handlers; inject the gRPC context kwarg when declared.
        let argsKw :=
          if meta.is_http_request && m.params.length == 0 then
            (([] : List PyArg), false)
          else if meta.is_grpc_request && m.params.contains GRPC_CONTEXT_ARG_NAME then
            (adapted, true)
          else (adapted, kwargsCtx0)
        match invokeMethod m argsKw.1 with
        | Except.error e =>
            { argsPassed := some argsKw.1
              ctxKwargPassed := argsKw.2
              sent500 := meta.is_http_request
              sentResultOverAsgi := false
              result := Except.error ⟨m.name, e⟩ }
        | Except.ok v =>
            if v.isGeneratorObject then
              { argsPassed := some argsKw.1
                ctxKwargPassed := argsKw.2
                sent500 := meta.is_http_request
                sentResultOverAsgi := false
                result := Except.error ⟨m.name, DispatchExc.usageErrorReturnedGenerator⟩ }
            else
              { argsPassed := some argsKw.1
                ctxKwargPassed := argsKw.2
                sent500 := false
                sentResultOverAsgi := meta.is_http_request && !w.callable.isAsgiApp
                result := Except.ok
                  (if meta.is_grpc_request then
                    UnaryReturn.grpcPair meta.grpc_context v
                  else UnaryReturn.val v) }

/-- One item yielded by the streaming path: the raw yielded value, or (gRPC)
the protocol context paired with the serialized value. -/
inductive StreamItem
  | item (n : Nat)
  | grpcItem (ctx : Nat) (n : Nat)
deriving DecidableEq

/-- Embedding of `UserCallableWrapper.call_user_method_generator`
(replica.py 907-954).  HTTP requests are rejected by the leading `assert`;
the method's result (after awaiting any coroutine) is iterated if it is a
synchronous or asynchronous generator and otherwise raises the streaming
`TypeError`.  Exceptions propagate unwrapped (there is no try/except on
this path). -/
def call_user_method_generator (w : UserCallableWrapper)
    (meta : RequestMetadata) (rawArgs : List PyArg) :
    Except DispatchExc (List StreamItem) :=
  if meta.is_http_request then Except.error DispatchExc.assertionFailed
  else
    match _get_user_callable_method w meta.call_method with
    | Except.error e => Except.error e
    | Except.ok m =>
        let args :=
          if meta.is_grpc_request then
            match rawArgs with
            | [PyArg.grpcRequest n] => [PyArg.grpcPayload n]
            | _ => rawArgs
          else rawArgs
        match invokeMethod m args with
        | Except.error e => Except.error e
        | Except.ok v =>
            match v with
            | RVal.plain _ => Except.error DispatchExc.usageErrorNotAGenerator
            | RVal.genObj xs =>
                Except.ok (xs.map (fun x =>
                  if meta.is_grpc_request then StreamItem.grpcItem meta.grpc_context x
                  else StreamItem.item x))
            | RVal.asyncGenObj xs =>
                Except.ok (xs.map (fun x =>
                  if meta.is_grpc_request then StreamItem.grpcItem meta.grpc_context x
                  else StreamItem.item x))

end Dispatch

/-! ## Reconf: `call_reconfigure` and `ReplicaActor.reconfigure`

Embeds `UserCallableWrapper.call_reconfigure` (replica.py 802-820) and
`ReplicaActor.reconfigure` (588-618).  The writer-lock acquisition of
`call_reconfigure` is modelled in the `Lock` section; here we model its
sequential effect. -/

namespace Reconf

/-- A `user_config` value: Python `None` or a dict (modelled as key-value
pairs; Python compares dicts by value and `!=` is structural). -/
inductive UserConfig
  | pyNone
  | pyDict (entries : List (String × Nat))
deriving DecidableEq

/-- Written from the spec's words: a `userConfig` is "empty" when it is
absent (`None`) or an empty collection (a Python-falsy dict). -/
def UserConfig.specIsEmpty : UserConfig → Bool
  | .pyNone => true
  | .pyDict entries => entries.isEmpty

/-- Errors raised by `call_reconfigure`: the `ValueError` for bare-function
deployments (replica.py 806-808), the `RayServeException` for a missing
reconfigure method (810-816), or an exception propagated from the user's
reconfigure method. -/
inductive ReconfErr
  | valueErrorBareFunction
  | rayServeMissingReconfigureMethod
  | userError (n : Nat)
deriving DecidableEq

/-- What `call_reconfigure` did: nothing (the `user_config is not None`
guard was false), or it invoked the handler's reconfigure method with the
given config. -/
inductive ReconfEffect
  | noop
  | invokedWith (cfg : UserConfig)
deriving DecidableEq

/-- Python `hasattr(self._callable, RECONFIGURE_METHOD)`. -/
def hasReconfigureMethod (w : Dispatch.UserCallableWrapper) : Bool :=
  (Dispatch.getattrOpt w.callable Dispatch.RECONFIGURE_METHOD).isSome

/-- Embedding of `UserCallableWrapper.call_reconfigure` (replica.py
802-820), minus the writer lock (see `Lock`).  The guard is
`if user_config is not None:` — an implicit no-op otherwise.
`userOutcome` is the outcome of the user's reconfigure method when it is
invoked (`Except.error n` models it raising). -/
def call_reconfigure (w : Dispatch.UserCallableWrapper)
    (user_config : UserConfig) (userOutcome : Except Nat Unit) :
    Except ReconfErr ReconfEffect :=
  if user_config = UserConfig.pyNone then Except.ok ReconfEffect.noop
  else if w.is_function then Except.error ReconfErr.valueErrorBareFunction
  else if !hasReconfigureMethod w then
    Except.error ReconfErr.rayServeMissingReconfigureMethod
  else
    match userOutcome with
    | Except.ok _ => Except.ok (ReconfEffect.invokedWith user_config)
    | Except.error n => Except.error (ReconfErr.userError n)

/-- The deployment config fields read or written by
`ReplicaActor.reconfigure`. -/
structure DeploymentConfig where
  user_config : UserConfig
  logging_config : Nat
  autoscaling_config : Option Nat
deriving DecidableEq

/-- Modelled from the spec: `DeploymentVersion` (ray/serve/_private/
version.py, not under src/) is an immutable value derived from the old
version and the new config, carrying the deployment config
(`_get_metadata` at replica.py 620-626 reads
`self._version.deployment_config`). -/
structure DeploymentVersion where
  code_version : Nat
  deployment_config : DeploymentConfig
deriving DecidableEq

/-- Modelled from the spec: `DeploymentVersion.from_deployment_version(old,
config)` derives the new version from the old version and the new config
(spec section 3: "new version is derived from (old version, new
config)"). -/
def DeploymentVersion.from_deployment_version (v : DeploymentVersion)
    (c : DeploymentConfig) : DeploymentVersion :=
  { code_version := v.code_version, deployment_config := c }

/-- The `ReplicaActor` fields touched by `reconfigure`: the stored config,
the stored version, the autoscaling config pushed into the metrics
manager, and the logging config the logger/profilers were last configured
with. -/
structure ReplicaState where
  deployment_config : DeploymentConfig
  version : DeploymentVersion
  metrics_autoscaling_config : Option Nat
  logger_configured_with : Nat
deriving DecidableEq

/-- Observable outcome of one `ReplicaActor.reconfigure` call: the final
actor state, whether the lock-held user-level reconfigure
(`call_reconfigure`) was invoked, and the returned metadata (`Except.error`
models the `raise RuntimeError(...)` rewrap at replica.py 617-618). -/
structure ReconfigureResult where
  state : ReplicaState
  invoked_user_reconfigure : Bool
  result : Except Unit (DeploymentConfig × DeploymentVersion)
deriving DecidableEq

/-- Embedding of `ReplicaActor.reconfigure` (replica.py 588-618): compare
the user-visible and logging portions against the stored config, then
unconditionally store the new config, derive and store the new version and
update the autoscaling config, reconfigure logging if it changed, and only
then — and only if the user config changed by value — invoke the lock-held
`call_reconfigure`, whose failure propagates after the stores. -/
def replica_reconfigure (s : ReplicaState) (w : Dispatch.UserCallableWrapper)
    (c : DeploymentConfig) (userOutcome : Except Nat Unit) : ReconfigureResult :=
  let user_config_changed := c.user_config ≠ s.deployment_config.user_config
  let logging_config_changed := c.logging_config ≠ s.deployment_config.logging_config
  let version' := DeploymentVersion.from_deployment_version s.version c
  let s1 : ReplicaState :=
    { deployment_config := c
      version := version'
      metrics_autoscaling_config := c.autoscaling_config
      logger_configured_with :=
        if logging_config_changed then c.logging_config
        else s.logger_configured_with }
  if user_config_changed then
    match call_reconfigure w c.user_config userOutcome with
    | Except.ok _ =>
        { state := s1, invoked_user_reconfigure := true
          result := Except.ok (version'.deployment_config, version') }
    | Except.error _ =>
        { state := s1, invoked_user_reconfigure := true
          result := Except.error () }
  else
    { state := s1, invoked_user_reconfigure := false
      result := Except.ok (version'.deployment_config, version') }

end Reconf

/-! ## Destruct: `UserCallableWrapper.call_destructor`

Embeds `call_destructor` (replica.py 956-981).  The `_delete_lock`
serializes concurrent shutdown signals, so a sequence of signals is a
sequence of calls.  Source:
```
async with self._delete_lock:
    if not hasattr(self, "_callable"):
        return
    try:
        if hasattr(self._callable, "__del__"):
            await sync_to_async(self._callable.__del__)()
            setattr(self._callable, "__del__", lambda _: None)
        if hasattr(self._callable, "__serve_multiplex_wrapper"):
            await getattr(self._callable, "__serve_multiplex_wrapper").shutdown()
    except Exception as e:
        logger.exception(...)
    finally:
        if hasattr(self._callable, "__del__"):
            del self._callable
```
-/

namespace Destruct

/-- The wrapper state observed by `call_destructor`: whether the wrapper
still holds the `_callable` attribute, whether the callable has a `__del__`
teardown hook, whether it has a `__serve_multiplex_wrapper`, and counters
for the observable hook invocations. -/
structure DState where
  hasCallableAttr : Bool
  callableHasDel : Bool
  hasMultiplexWrapper : Bool
  delCalls : Nat
  multiplexShutdownCalls : Nat
deriving DecidableEq

/-- Behaviour of the user hooks during one call: whether the teardown hook
raises and whether the multiplex shutdown raises. -/
structure CallBehavior where
  delRaises : Bool
  multiplexShutdownRaises : Bool
deriving DecidableEq

/-- The try block of `call_destructor` (replica.py 966-975): run the
teardown hook if present (replacing it by a no-op on success), then the
multiplex shutdown if present; returns the updated state and the exception
the block raised, if any. -/
def destructorTryBody (s : DState) (b : CallBehavior) : DState × Option Unit :=
  if s.callableHasDel then
    let s1 := { s with delCalls := s.delCalls + 1 }
    if b.delRaises then (s1, some ())
    else if s.hasMultiplexWrapper then
      let s2 := { s1 with multiplexShutdownCalls := s1.multiplexShutdownCalls + 1 }
      (s2, if b.multiplexShutdownRaises then some () else none)
    else (s1, none)
  else if s.hasMultiplexWrapper then
    let s1 := { s with multiplexShutdownCalls := s.multiplexShutdownCalls + 1 }
    (s1, if b.multiplexShutdownRaises then some () else none)
  else (s, none)

/-- Embedding of `UserCallableWrapper.call_destructor` (replica.py
956-981): early-return when `_callable` is gone; run the try block; the
`except Exception` clause logs and swallows any exception from it; the
`finally` clause deletes `self._callable` only when the callable (still)
has a `__del__` attribute.  Returns the new state and the exception the
call propagates (none by construction of the except clause). -/
def call_destructor (s : DState) (b : CallBehavior) : DState × Option Unit :=
  if !s.hasCallableAttr then (s, none)
  else
    let bodyOut := destructorTryBody s b
    -- except Exception: logger.exception(...)  -- swallowed
    let s' := bodyOut.1
    -- finally:
    let s'' :=
      if s'.callableHasDel then { s' with hasCallableAttr := false } else s'
    (s'', none)

/-- State after one `call_destructor` call. -/
def call_destructor_state (s : DState) (b : CallBehavior) : DState :=
  (call_destructor s b).1

/-- A sequence of shutdown signals, serialized by `_delete_lock`. -/
def run_destructor_calls (s : DState) : List CallBehavior → DState
  | [] => s
  | b :: rest => run_destructor_calls (call_destructor_state s b) rest

end Destruct

/-! ## Fixtures: concrete handlers and requests used by witnesses and
counterexamples -/

namespace Fixtures

open Dispatch

/-- A plain unary method `greet(name)` returning a value. -/
def mGreet : UserMethod :=
  { name := "greet", params := ["name"],
    isGeneratorFunction := false, isAsyncGenFunction := false,
    outcome := Except.ok (RVal.plain 5) }

/-- A method that is not a generator function but returns a generator
object (`def get_stream(self): return iter(...)`). -/
def mReturnsGen : UserMethod :=
  { name := "get_stream", params := [],
    isGeneratorFunction := false, isAsyncGenFunction := false,
    outcome := Except.ok (RVal.genObj [1, 2]) }

/-- A synchronous generator method (`def count_up(self): yield ...`). -/
def mCountUp : UserMethod :=
  { name := "count_up", params := [],
    isGeneratorFunction := true, isAsyncGenFunction := false,
    outcome := Except.ok (RVal.genObj [0, 1, 2]) }

/-- A zero-parameter plain HTTP handler method (`def ping(self): ...`). -/
def mPing : UserMethod :=
  { name := "ping", params := [],
    isGeneratorFunction := false, isAsyncGenFunction := false,
    outcome := Except.ok (RVal.plain 9) }

/-- A class-based handler instance: public callable methods, one private
helper, one non-callable attribute and a dunder attribute, no `reconfigure`
method, not an ASGI-app adapter. -/
def handlerEx : UserCallable :=
  { attrs :=
      [ { name := "__init__", isCallable := true, method := mGreet }
      , { name := "greet", isCallable := true, method := mGreet }
      , { name := "get_stream", isCallable := true, method := mReturnsGen }
      , { name := "count_up", isCallable := true, method := mCountUp }
      , { name := "ping", isCallable := true, method := mPing }
      , { name := "model_path", isCallable := false, method := mGreet } ]
    isAsgiApp := false }

/-- The wrapper around `handlerEx` (class-based deployment). -/
def wEx : UserCallableWrapper :=
  { is_function := false, functionMethod := mGreet, callable := handlerEx }

/-- A wrapper around a bare-function deployment. -/
def wFn : UserCallableWrapper :=
  { is_function := true, functionMethod := mGreet, callable := handlerEx }

/-- Plain (handle-call) request metadata targeting `get_stream`. -/
def metaStream : RequestMetadata :=
  { is_http_request := false, is_grpc_request := false,
    call_method := "get_stream", grpc_context := 0 }

/-- Plain (handle-call) request metadata targeting a missing method. -/
def metaMissing : RequestMetadata :=
  { is_http_request := false, is_grpc_request := false,
    call_method := "missing_method", grpc_context := 0 }

/-- HTTP request metadata targeting the zero-parameter handler `ping`. -/
def metaHttpPing : RequestMetadata :=
  { is_http_request := true, is_grpc_request := false,
    call_method := "ping", grpc_context := 0 }

/-- Plain (handle-call) request metadata targeting `greet`. -/
def metaGreet : RequestMetadata :=
  { is_http_request := false, is_grpc_request := false,
    call_method := "greet", grpc_context := 0 }

/-- Plain (handle-call) request metadata targeting the generator method
`count_up`. -/
def metaCount : RequestMetadata :=
  { is_http_request := false, is_grpc_request := false,
    call_method := "count_up", grpc_context := 0 }

/-- A deployment config value for reconfigure fixtures. -/
def cfgOld : Reconf.DeploymentConfig :=
  { user_config := Reconf.UserConfig.pyDict [("threshold", 1)]
    logging_config := 0
    autoscaling_config := none }

/-- A config whose user-visible portion differs from `cfgOld` by value. -/
def cfgNew : Reconf.DeploymentConfig :=
  { user_config := Reconf.UserConfig.pyDict [("threshold", 2)]
    logging_config := 0
    autoscaling_config := some 4 }

/-- An initial replica state storing `cfgOld`. -/
def replicaSt : Reconf.ReplicaState :=
  { deployment_config := cfgOld
    version := { code_version := 11, deployment_config := cfgOld }
    metrics_autoscaling_config := none
    logger_configured_with := 0 }

end Fixtures

/-! ## Theorems -/

set_option maxRecDepth 4000 in
/-- The guarded-step relation preserves `Lock.guardedInv`, checked over the
whole finite state space (Boolean form). -/
lemma lock_guardedInv_step_all : ∀ s : Lock.St, ∀ t : Lock.Tid,
    Lock.guardedInv s = true →
    Option.all Lock.guardedInv (Lock.stepGuarded s t) = true := by
  decide

/-- The guarded-step relation preserves `Lock.guardedInv`. -/
lemma lock_guardedInv_step : ∀ s : Lock.St, ∀ t : Lock.Tid,
    Lock.guardedInv s = true →
    ∀ s' : Lock.St, Lock.stepGuarded s t = some s' →
    Lock.guardedInv s' = true := by
  intro s t hs s' hstep
  have h := lock_guardedInv_step_all s t hs
  rw [hstep] at h
  simpa [Option.all] using h

/-- The invariant holds along every guarded run. -/
lemma lock_guardedInv_run : ∀ (sched : List Lock.Tid) (s s' : Lock.St),
    Lock.guardedInv s = true → Lock.run Lock.stepGuarded s sched = some s' →
    Lock.guardedInv s' = true := by
  intro sched
  induction sched with
  | nil =>
      intro s s' hs hr
      simp only [Lock.run, Option.some.injEq] at hr
      exact hr ▸ hs
  | cons t rest ih =>
      intro s s' hs hr
      simp only [Lock.run] at hr
      cases hstep : Lock.stepGuarded s t with
      | none => rw [hstep] at hr; exact absurd hr (by simp)
      | some s1 =>
          rw [hstep] at hr
          exact ih s1 s' (lock_guardedInv_step s t hs s1 hstep) hr

/-- Under the spec's intended reader/writer discipline (dispatch runs under
shared access), no schedule lets the dispatch run while the writer lock is
held or observe a partially-applied config: every recorded observation saw
the lock free and both config halves equal.  Supporting result, for
contrast with the code-as-written system of `C1`. -/
theorem lock_guarded_no_partial_observation :
    ∀ (sched : List Lock.Tid) (s' : Lock.St),
    Lock.run Lock.stepGuarded Lock.initSt sched = some s' →
    Lock.obsConsistent s'.obs = true := by
  intro sched s' hr
  have h := lock_guardedInv_run sched Lock.initSt s' (by decide) hr
  simp only [Lock.guardedInv, Bool.and_eq_true] at h
  exact h.1.1.1.1

/-- C1: the claim states that every dispatch runs under shared access, so no
dispatch proceeds while `call_reconfigure` holds exclusive access and no
dispatch observes a partially-applied reconfigure, for every interleaving.
The code as written (`call_user_method` / `call_user_method_generator`
never acquire `_rwlock.reader`) violates this: under the concrete
interleaving "reconfigure acquires the writer lock and applies the first
half of the user config; the dispatch body runs; reconfigure applies the
second half and releases", the run completes and the dispatch's observation
records that the writer lock was held and that exactly one of the two
config halves was updated — a partially-applied reconfigure observed while
exclusive access is held. -/
theorem C1_dispatch_proceeds_during_exclusive_reconfigure :
    Lock.run Lock.stepCode Lock.initSt
        [Lock.Tid.reconf, Lock.Tid.reconf, Lock.Tid.disp,
         Lock.Tid.reconf, Lock.Tid.reconf]
      = some { writerHeld := false, cfgA := true, cfgB := true,
               reconfPC := 4, dispDone := true,
               obs := some (true, true, false) } := by
  decide

/-- C2: the claim states that the per-request envelope classifies completion
as CANCELLED exactly on a cooperative-cancellation signal and emits one
access-log record and one metrics observation unconditionally, including on
cancellation.  In the code, `except Exception` cannot catch
`asyncio.CancelledError` (a `BaseException` in all supported Python
versions), so on cancellation the envelope emits no access-log record and
no metrics observation and propagates the signal — and no outcome at all is
ever logged with status CANCELLED (the branch is dead code). -/
theorem C2_cancellation_skips_bookkeeping :
    Wrap.wrap_user_method_call (some Wrap.PyExc.cancelledError)
      = { accessLogRecords := 0, metricsRecords := 0, loggedStatus := none,
          wasErrorFlag := none, raised := some Wrap.PyExc.cancelledError }
    ∧ ∀ o : Option Wrap.PyExc,
        (Wrap.wrap_user_method_call o).loggedStatus ≠ some Wrap.Status.CANCELLED := by
  refine ⟨rfl, ?_⟩
  intro o
  match o with
  | none => simp [Wrap.wrap_user_method_call]
  | some Wrap.PyExc.cancelledError =>
      simp [Wrap.wrap_user_method_call, Wrap.PyExc.isInstanceOfException]
  | some (Wrap.PyExc.exc n) =>
      simp [Wrap.wrap_user_method_call, Wrap.PyExc.isInstanceOfException,
        Wrap.PyExc.isInstanceOfCancelledError]

/-- C2 witness: the envelope at concrete outcomes never logs CANCELLED. -/
theorem C2_cancellation_skips_bookkeeping_witness :
    (Wrap.wrap_user_method_call (some (Wrap.PyExc.exc 7))).loggedStatus
      ≠ some Wrap.Status.CANCELLED :=
  C2_cancellation_skips_bookkeeping.2 (some (Wrap.PyExc.exc 7))

/-- C3 counterexample: the claim states `callReconfigure(userConfig)` is a
no-op when `userConfig` is empty, but the code's guard is
`if user_config is not None:` — on the empty dict `{}` (empty, yet not
`None`) with a bare-function handler, the call is not a no-op: it raises
the bare-function `ValueError`. -/
theorem C3_counterexample_empty_dict_not_noop :
    Reconf.UserConfig.specIsEmpty (Reconf.UserConfig.pyDict []) = true
    ∧ Reconf.call_reconfigure Fixtures.wFn (Reconf.UserConfig.pyDict [])
        (Except.ok ())
      = Except.error Reconf.ReconfErr.valueErrorBareFunction := by
  exact ⟨rfl, rfl⟩

/-- C3 (amended): `callReconfigure(userConfig)` is a no-op exactly when
`userConfig` is `None`; for any non-`None` `userConfig` — including an
empty dict — it fails with the bare-function `ValueError` if the handler is
a bare function, fails with `RayServeException` if the handler lacks a
`reconfigure` method, and otherwise invokes the handler's `reconfigure`
method with `userConfig` and propagates that method's exceptions. -/
theorem C3_reconfigure_none_guard :
    (∀ (w : Dispatch.UserCallableWrapper) (out : Except Nat Unit),
       Reconf.call_reconfigure w Reconf.UserConfig.pyNone out
         = Except.ok Reconf.ReconfEffect.noop)
    ∧ (∀ (w : Dispatch.UserCallableWrapper) (d : List (String × Nat))
         (out : Except Nat Unit), w.is_function = true →
       Reconf.call_reconfigure w (Reconf.UserConfig.pyDict d) out
         = Except.error Reconf.ReconfErr.valueErrorBareFunction)
    ∧ (∀ (w : Dispatch.UserCallableWrapper) (d : List (String × Nat))
         (out : Except Nat Unit), w.is_function = false →
       Reconf.hasReconfigureMethod w = false →
       Reconf.call_reconfigure w (Reconf.UserConfig.pyDict d) out
         = Except.error Reconf.ReconfErr.rayServeMissingReconfigureMethod)
    ∧ (∀ (w : Dispatch.UserCallableWrapper) (d : List (String × Nat)),
       w.is_function = false → Reconf.hasReconfigureMethod w = true →
       Reconf.call_reconfigure w (Reconf.UserConfig.pyDict d) (Except.ok ())
         = Except.ok (Reconf.ReconfEffect.invokedWith (Reconf.UserConfig.pyDict d)))
    ∧ (∀ (w : Dispatch.UserCallableWrapper) (d : List (String × Nat)) (n : Nat),
       w.is_function = false → Reconf.hasReconfigureMethod w = true →
       Reconf.call_reconfigure w (Reconf.UserConfig.pyDict d) (Except.error n)
         = Except.error (Reconf.ReconfErr.userError n)) := by
  refine ⟨?_, ?_, ?_, ?_, ?_⟩
  · intro w out
    simp [Reconf.call_reconfigure]
  · intro w d out hfn
    simp [Reconf.call_reconfigure, hfn]
  · intro w d out hfn hrec
    simp [Reconf.call_reconfigure, hfn, hrec]
  · intro w d hfn hrec
    simp [Reconf.call_reconfigure, hfn, hrec]
  · intro w d n hfn hrec
    simp [Reconf.call_reconfigure, hfn, hrec]

/-- C3 witness: the amended behaviour at concrete inputs — `None` is a
no-op even for a bare function, and a bare function with a non-`None`
config fails with the bare-function `ValueError`. -/
theorem C3_reconfigure_none_guard_witness :
    Reconf.call_reconfigure Fixtures.wFn Reconf.UserConfig.pyNone (Except.ok ())
        = Except.ok Reconf.ReconfEffect.noop
    ∧ Reconf.call_reconfigure Fixtures.wFn
        (Reconf.UserConfig.pyDict [("threshold", 2)]) (Except.ok ())
        = Except.error Reconf.ReconfErr.valueErrorBareFunction :=
  ⟨C3_reconfigure_none_guard.1 Fixtures.wFn (Except.ok ()),
   C3_reconfigure_none_guard.2.1 Fixtures.wFn [("threshold", 2)]
     (Except.ok ()) rfl⟩

/-- C4: `ReplicaActor.reconfigure` invokes the lock-held user-level
reconfigure (`call_reconfigure`) exactly when the user-visible portion of
the new config differs by value from the stored one, and it always stores
the new config, the derived version and the new autoscaling config — the
stores happen before the user-level reconfigure call, so even when that
call fails the advertised config carried by the version has already
changed. -/
theorem C4_reconfigure_updates_stored_config_first :
    ∀ (s : Reconf.ReplicaState) (w : Dispatch.UserCallableWrapper)
      (c : Reconf.DeploymentConfig) (out : Except Nat Unit),
    ((Reconf.replica_reconfigure s w c out).invoked_user_reconfigure = true
       ↔ c.user_config ≠ s.deployment_config.user_config)
    ∧ (Reconf.replica_reconfigure s w c out).state.deployment_config = c
    ∧ (Reconf.replica_reconfigure s w c out).state.version
        = Reconf.DeploymentVersion.from_deployment_version s.version c
    ∧ (Reconf.replica_reconfigure s w c out).state.metrics_autoscaling_config
        = c.autoscaling_config
    ∧ ((Reconf.replica_reconfigure s w c out).result = Except.error () →
         (Reconf.replica_reconfigure s w c out).state.version.deployment_config
           = c) := by
  intro s w c out
  by_cases h : c.user_config = s.deployment_config.user_config
  · simp [Reconf.replica_reconfigure, h,
      Reconf.DeploymentVersion.from_deployment_version]
  · cases hcr : Reconf.call_reconfigure w c.user_config out with
    | ok eff =>
        simp [Reconf.replica_reconfigure, h, hcr,
          Reconf.DeploymentVersion.from_deployment_version]
    | error e =>
        simp [Reconf.replica_reconfigure, h, hcr,
          Reconf.DeploymentVersion.from_deployment_version]

/-- C4 witness: the full statement at a concrete state, wrapper and config
whose user-visible portion changed and whose user-level reconfigure fails
(a bare-function handler): the advertised config has changed anyway. -/
theorem C4_reconfigure_updates_stored_config_first_witness :
    ((Reconf.replica_reconfigure Fixtures.replicaSt Fixtures.wFn Fixtures.cfgNew
        (Except.ok ())).invoked_user_reconfigure = true
       ↔ Fixtures.cfgNew.user_config
           ≠ Fixtures.replicaSt.deployment_config.user_config)
    ∧ (Reconf.replica_reconfigure Fixtures.replicaSt Fixtures.wFn Fixtures.cfgNew
        (Except.ok ())).state.deployment_config = Fixtures.cfgNew
    ∧ (Reconf.replica_reconfigure Fixtures.replicaSt Fixtures.wFn Fixtures.cfgNew
        (Except.ok ())).state.version
        = Reconf.DeploymentVersion.from_deployment_version
            Fixtures.replicaSt.version Fixtures.cfgNew
    ∧ (Reconf.replica_reconfigure Fixtures.replicaSt Fixtures.wFn Fixtures.cfgNew
        (Except.ok ())).state.metrics_autoscaling_config
        = Fixtures.cfgNew.autoscaling_config
    ∧ ((Reconf.replica_reconfigure Fixtures.replicaSt Fixtures.wFn Fixtures.cfgNew
        (Except.ok ())).result = Except.error () →
         (Reconf.replica_reconfigure Fixtures.replicaSt Fixtures.wFn
           Fixtures.cfgNew (Except.ok ())).state.version.deployment_config
           = Fixtures.cfgNew) :=
  C4_reconfigure_updates_stored_config_first Fixtures.replicaSt Fixtures.wFn
    Fixtures.cfgNew (Except.ok ())

/-- One `call_destructor` call preserves the destructor invariant: the
teardown counter never exceeds one, and is still zero whenever the
`_callable` attribute is still present. -/
lemma destruct_step_inv (s : Destruct.DState) (b : Destruct.CallBehavior)
    (h1 : s.delCalls ≤ 1) (h2 : s.hasCallableAttr = true → s.delCalls = 0) :
    (Destruct.call_destructor_state s b).delCalls ≤ 1
    ∧ ((Destruct.call_destructor_state s b).hasCallableAttr = true →
        (Destruct.call_destructor_state s b).delCalls = 0) := by
  obtain ⟨hc, hd, hm, n, k⟩ := s
  obtain ⟨dr, mr⟩ := b
  cases hc <;> cases hd <;> cases dr <;> cases hm <;> cases mr <;>
    simp_all [Destruct.call_destructor_state, Destruct.call_destructor,
      Destruct.destructorTryBody]

/-- The destructor invariant holds along any sequence of shutdown
signals. -/
lemma destruct_run_inv (bs : List Destruct.CallBehavior) :
    ∀ s : Destruct.DState, s.delCalls ≤ 1 →
    (s.hasCallableAttr = true → s.delCalls = 0) →
    (Destruct.run_destructor_calls s bs).delCalls ≤ 1 := by
  induction bs with
  | nil => intro s h1 _; simpa [Destruct.run_destructor_calls] using h1
  | cons b rest ih =>
      intro s h1 h2
      have h := destruct_step_inv s b h1 h2
      simpa [Destruct.run_destructor_calls] using
        ih (Destruct.call_destructor_state s b) h.1 h.2

/-- After the `_callable` attribute is gone, `call_destructor` is the
identity. -/
lemma destruct_gone_noop (s : Destruct.DState) (b : Destruct.CallBehavior)
    (h : s.hasCallableAttr = false) :
    Destruct.call_destructor_state s b = s := by
  simp [Destruct.call_destructor_state, Destruct.call_destructor, h]

/-- After the `_callable` attribute is gone, any sequence of further
shutdown signals is a no-op. -/
lemma destruct_run_gone (bs : List Destruct.CallBehavior) :
    ∀ s : Destruct.DState, s.hasCallableAttr = false →
    Destruct.run_destructor_calls s bs = s := by
  induction bs with
  | nil => intro s _; rfl
  | cons b rest ih =>
      intro s h
      simp only [Destruct.run_destructor_calls]
      rw [destruct_gone_noop s b h]
      exact ih s h

/-- C5: over any sequence of shutdown signals from a fresh replica, the
user-level teardown hook runs at most once; and after a `call_destructor`
run in which the teardown hook ran — whether it succeeded or raised
(`b.delRaises` arbitrary) — the `_callable` attribute is deleted and every
subsequent invocation is a no-op. -/
theorem C5_destructor_invoked_at_most_once :
    (∀ (s0 : Destruct.DState) (bs : List Destruct.CallBehavior),
       s0.delCalls = 0 → (Destruct.run_destructor_calls s0 bs).delCalls ≤ 1)
    ∧ (∀ (s : Destruct.DState) (b : Destruct.CallBehavior),
       s.hasCallableAttr = true → s.callableHasDel = true →
       (Destruct.call_destructor_state s b).delCalls = s.delCalls + 1
       ∧ (Destruct.call_destructor_state s b).hasCallableAttr = false
       ∧ ∀ bs : List Destruct.CallBehavior,
           Destruct.run_destructor_calls (Destruct.call_destructor_state s b) bs
             = Destruct.call_destructor_state s b) := by
  constructor
  · intro s0 bs h0
    exact destruct_run_inv bs s0 (by omega) (fun _ => h0)
  · intro s b hc hd
    have hstate : (Destruct.call_destructor_state s b).delCalls = s.delCalls + 1
        ∧ (Destruct.call_destructor_state s b).hasCallableAttr = false := by
      obtain ⟨hc', hd', hm, n, k⟩ := s
      obtain ⟨dr, mr⟩ := b
      cases hc' <;> cases hd' <;> cases dr <;> cases hm <;> cases mr <;>
        simp_all [Destruct.call_destructor_state, Destruct.call_destructor,
          Destruct.destructorTryBody]
    exact ⟨hstate.1, hstate.2, fun bs => destruct_run_gone bs _ hstate.2⟩

/-- C5 witness: a fresh replica whose teardown hook raises on the first
signal and which receives three shutdown signals runs the hook exactly
once; and after the first call the state is frozen. -/
theorem C5_destructor_invoked_at_most_once_witness :
    (Destruct.run_destructor_calls
        { hasCallableAttr := true, callableHasDel := true,
          hasMultiplexWrapper := true, delCalls := 0, multiplexShutdownCalls := 0 }
        [ { delRaises := true, multiplexShutdownRaises := false }
        , { delRaises := false, multiplexShutdownRaises := false }
        , { delRaises := false, multiplexShutdownRaises := false } ]).delCalls ≤ 1
    ∧ ((Destruct.call_destructor_state
          { hasCallableAttr := true, callableHasDel := true,
            hasMultiplexWrapper := true, delCalls := 0,
            multiplexShutdownCalls := 0 }
          { delRaises := true, multiplexShutdownRaises := false }).delCalls
        = 0 + 1) :=
  ⟨C5_destructor_invoked_at_most_once.1 _ _ rfl,
   (C5_destructor_invoked_at_most_once.2 _ _ rfl rfl).1⟩

/-- C6 counterexample: the claim states the handler reference is cleared
unconditionally after any completed `call_destructor` invocation, for every
handler whether or not it defines a teardown hook.  For a handler without a
`__del__` attribute the `finally` clause's guard
`if hasattr(self._callable, "__del__")` is false, so the completed call
leaves the `_callable` reference in place. -/
theorem C6_counterexample_no_teardown_keeps_handler :
    (Destruct.call_destructor
        { hasCallableAttr := true, callableHasDel := false,
          hasMultiplexWrapper := false, delCalls := 0,
          multiplexShutdownCalls := 0 }
        { delRaises := false, multiplexShutdownRaises := false }).1.hasCallableAttr
      = true := rfl

/-- C6 (amended): a completed `call_destructor` invocation never raises
(teardown and auxiliary-shutdown exceptions are logged and swallowed), and
when the wrapper still holds the handler, the handler reference is cleared
if and only if the handler defines a `__del__` teardown hook — whether or
not the teardown raised; for a handler without a teardown hook the
reference is retained. -/
theorem C6_handler_cleared_iff_teardown_hook :
    (∀ (s : Destruct.DState) (b : Destruct.CallBehavior),
       (Destruct.call_destructor s b).2 = none)
    ∧ (∀ (s : Destruct.DState) (b : Destruct.CallBehavior),
       s.hasCallableAttr = true →
       ((Destruct.call_destructor s b).1.hasCallableAttr = false
         ↔ s.callableHasDel = true)) := by
  constructor
  · intro s b
    by_cases h : s.hasCallableAttr <;>
      simp [Destruct.call_destructor, h]
  · intro s b hc
    obtain ⟨hc', hd, hm, n, k⟩ := s
    obtain ⟨dr, mr⟩ := b
    cases hc' <;> cases hd <;> cases dr <;> cases hm <;> cases mr <;>
      simp_all [Destruct.call_destructor, Destruct.destructorTryBody]

/-- C6 witness: at a handler with a raising teardown hook, the call returns
without raising and the handler reference is cleared. -/
theorem C6_handler_cleared_iff_teardown_hook_witness :
    (Destruct.call_destructor
        { hasCallableAttr := true, callableHasDel := true,
          hasMultiplexWrapper := false, delCalls := 0,
          multiplexShutdownCalls := 0 }
        { delRaises := true, multiplexShutdownRaises := false }).2 = none
    ∧ ((Destruct.call_destructor
        { hasCallableAttr := true, callableHasDel := true,
          hasMultiplexWrapper := false, delCalls := 0,
          multiplexShutdownCalls := 0 }
        { delRaises := true, multiplexShutdownRaises := false }).1.hasCallableAttr
          = false
        ↔ ({ hasCallableAttr := true, callableHasDel := true,
             hasMultiplexWrapper := false, delCalls := 0,
             multiplexShutdownCalls := 0 } : Destruct.DState).callableHasDel
            = true) :=
  ⟨C6_handler_cleared_iff_teardown_hook.1 _ _,
   C6_handler_cleared_iff_teardown_hook.2 _ _ rfl⟩

/-- C7: for every class-based handler and every method name not present on
the handler, both the unary and the streaming dispatch fail with the
`RayServeException` for a missing method (`MethodNotFound`), and the
`methods` list it carries is exactly the handler's public non-internal
callable attributes (spec-side definition `specPublicCallableAttrs`). -/
theorem C7_unknown_method_raises_method_not_found :
    (∀ c : Dispatch.UserCallable,
       Dispatch.availableMethods c = Dispatch.specPublicCallableAttrs c)
    ∧ (∀ (w : Dispatch.UserCallableWrapper) (meta : Dispatch.RequestMetadata)
         (rawArgs : List Dispatch.PyArg) (kw : Bool),
       w.is_function = false →
       Dispatch.getattrOpt w.callable meta.call_method = none →
       (Dispatch.call_user_method w meta rawArgs kw).result
         = Except.error ⟨"unknown",
             Dispatch.DispatchExc.methodNotFound
               (Dispatch.specPublicCallableAttrs w.callable)⟩)
    ∧ (∀ (w : Dispatch.UserCallableWrapper) (meta : Dispatch.RequestMetadata)
         (rawArgs : List Dispatch.PyArg),
       w.is_function = false → meta.is_http_request = false →
       Dispatch.getattrOpt w.callable meta.call_method = none →
       Dispatch.call_user_method_generator w meta rawArgs
         = Except.error
             (Dispatch.DispatchExc.methodNotFound
               (Dispatch.specPublicCallableAttrs w.callable))) := by
  have hfilter : ∀ c : Dispatch.UserCallable,
      Dispatch.availableMethods c = Dispatch.specPublicCallableAttrs c := by
    intro c
    have hfun : Dispatch.callable_method_filter c
        = fun n => Dispatch.isAttrCallable c n && !n.startsWith "__" := by
      funext n
      unfold Dispatch.callable_method_filter
      by_cases h1 : n.startsWith "__" <;>
        by_cases h2 : Dispatch.isAttrCallable c n <;> simp [h1, h2]
    unfold Dispatch.availableMethods Dispatch.specPublicCallableAttrs
    rw [hfun]
  refine ⟨hfilter, ?_, ?_⟩
  · intro w meta rawArgs kw hfn habs
    simp [Dispatch.call_user_method, Dispatch._get_user_callable_method,
      hfn, habs, hfilter w.callable]
  · intro w meta rawArgs hfn hhttp habs
    simp [Dispatch.call_user_method_generator,
      Dispatch._get_user_callable_method, hfn, hhttp, habs,
      hfilter w.callable]

/-- C7 witness: dispatching the absent method name on the concrete handler
fails on both paths with the missing-method error carrying the handler's
public non-internal callable attributes. -/
theorem C7_unknown_method_raises_method_not_found_witness :
    Dispatch.availableMethods Fixtures.handlerEx
      = Dispatch.specPublicCallableAttrs Fixtures.handlerEx
    ∧ (Dispatch.call_user_method Fixtures.wEx Fixtures.metaMissing [] false).result
        = Except.error ⟨"unknown",
            Dispatch.DispatchExc.methodNotFound
              (Dispatch.specPublicCallableAttrs Fixtures.handlerEx)⟩
    ∧ Dispatch.call_user_method_generator Fixtures.wEx Fixtures.metaMissing []
        = Except.error
            (Dispatch.DispatchExc.methodNotFound
              (Dispatch.specPublicCallableAttrs Fixtures.handlerEx)) :=
  ⟨C7_unknown_method_raises_method_not_found.1 Fixtures.handlerEx,
   C7_unknown_method_raises_method_not_found.2.1 Fixtures.wEx
     Fixtures.metaMissing [] false rfl (by decide),
   C7_unknown_method_raises_method_not_found.2.2 Fixtures.wEx
     Fixtures.metaMissing [] rfl rfl (by decide)⟩

/-- C8 counterexample: the claim states that dispatching a method that is
not a generator (synchronous or asynchronous) via the streaming path fails
with `UsageError`; but the streaming path checks only the call's result —
a method with both generator-function flags false whose body returns a
generator object streams successfully. -/
theorem C8_counterexample_plain_method_returning_generator_streams :
    Fixtures.mReturnsGen.isGeneratorFunction = false
    ∧ Fixtures.mReturnsGen.isAsyncGenFunction = false
    ∧ Dispatch._get_user_callable_method Fixtures.wEx
        Fixtures.metaStream.call_method = Except.ok Fixtures.mReturnsGen
    ∧ Dispatch.call_user_method_generator Fixtures.wEx Fixtures.metaStream []
        = Except.ok [Dispatch.StreamItem.item 1, Dispatch.StreamItem.item 2] := by
  refine ⟨rfl, rfl, by decide, by decide⟩

/-- C8 (amended): dispatching a generator-shaped method (or a method whose
result is a generator) via the unary path fails with the `TypeError`
directing the caller to `stream=True`; and dispatching via the streaming
path fails with the streaming `TypeError` exactly when the value the
method call produces (after awaiting any coroutine) is neither a
synchronous nor an asynchronous generator — in particular a
non-generator-function method whose result is a generator object streams
its items successfully. -/
theorem C8_generator_shape_mismatch_usage_errors :
    (∀ (w : Dispatch.UserCallableWrapper) (meta : Dispatch.RequestMetadata)
       (rawArgs : List Dispatch.PyArg) (kw : Bool) (m : Dispatch.UserMethod),
       Dispatch._get_user_callable_method w meta.call_method = Except.ok m →
       (m.isGeneratorFunction = true ∨ m.isAsyncGenFunction = true) →
       (Dispatch.call_user_method w meta rawArgs kw).result
         = Except.error ⟨m.name, Dispatch.DispatchExc.usageErrorGeneratorFunction⟩)
    ∧ (∀ (w : Dispatch.UserCallableWrapper) (meta : Dispatch.RequestMetadata)
         (rawArgs : List Dispatch.PyArg) (kw : Bool) (m : Dispatch.UserMethod)
         (v : Dispatch.RVal),
       meta.is_http_request = false → meta.is_grpc_request = false →
       Dispatch._get_user_callable_method w meta.call_method = Except.ok m →
       m.isGeneratorFunction = false → m.isAsyncGenFunction = false →
       rawArgs.length ≤ m.params.length →
       m.outcome = Except.ok v → v.isGeneratorObject = true →
       (Dispatch.call_user_method w meta rawArgs kw).result
         = Except.error ⟨m.name, Dispatch.DispatchExc.usageErrorReturnedGenerator⟩)
    ∧ (∀ (w : Dispatch.UserCallableWrapper) (meta : Dispatch.RequestMetadata)
         (rawArgs : List Dispatch.PyArg) (m : Dispatch.UserMethod) (n : Nat),
       meta.is_http_request = false → meta.is_grpc_request = false →
       Dispatch._get_user_callable_method w meta.call_method = Except.ok m →
       rawArgs.length ≤ m.params.length →
       m.outcome = Except.ok (Dispatch.RVal.plain n) →
       Dispatch.call_user_method_generator w meta rawArgs
         = Except.error Dispatch.DispatchExc.usageErrorNotAGenerator)
    ∧ (∀ (w : Dispatch.UserCallableWrapper) (meta : Dispatch.RequestMetadata)
         (rawArgs : List Dispatch.PyArg) (m : Dispatch.UserMethod)
         (xs : List Nat),
       meta.is_http_request = false → meta.is_grpc_request = false →
       Dispatch._get_user_callable_method w meta.call_method = Except.ok m →
       rawArgs.length ≤ m.params.length →
       m.outcome = Except.ok (Dispatch.RVal.genObj xs) →
       Dispatch.call_user_method_generator w meta rawArgs
         = Except.ok (xs.map Dispatch.StreamItem.item)) := by
  refine ⟨?_, ?_, ?_, ?_⟩
  · intro w meta rawArgs kw m hres hgen
    rcases hgen with h | h <;>
      simp [Dispatch.call_user_method, hres, h]
  · intro w meta rawArgs kw m v hhttp hgrpc hres hgf hagf hlen hout hv
    simp [Dispatch.call_user_method, Dispatch.adaptRequestArgs,
      Dispatch.invokeMethod, hres, hhttp, hgrpc, hgf, hagf, hout, hv,
      Nat.not_lt.mpr hlen]
  · intro w meta rawArgs m n hhttp hgrpc hres hlen hout
    simp [Dispatch.call_user_method_generator, Dispatch.invokeMethod,
      hres, hhttp, hgrpc, hout, Nat.not_lt.mpr hlen]
  · intro w meta rawArgs m xs hhttp hgrpc hres hlen hout
    simp [Dispatch.call_user_method_generator, Dispatch.invokeMethod,
      hres, hhttp, hgrpc, hout, Nat.not_lt.mpr hlen]

/-- C8 witness: the four amended behaviours at concrete handler methods —
a generator-function method rejected on the unary path; a method whose
result is a generator rejected on the unary path; a plain-result method
rejected on the streaming path; and a generator result streamed. -/
theorem C8_generator_shape_mismatch_usage_errors_witness :
    (Dispatch.call_user_method Fixtures.wEx Fixtures.metaCount [] false).result
      = Except.error ⟨Fixtures.mCountUp.name,
          Dispatch.DispatchExc.usageErrorGeneratorFunction⟩
    ∧ (Dispatch.call_user_method Fixtures.wEx Fixtures.metaStream [] false).result
      = Except.error ⟨Fixtures.mReturnsGen.name,
          Dispatch.DispatchExc.usageErrorReturnedGenerator⟩
    ∧ Dispatch.call_user_method_generator Fixtures.wEx Fixtures.metaGreet
        [Dispatch.PyArg.plainArg 3]
      = Except.error Dispatch.DispatchExc.usageErrorNotAGenerator
    ∧ Dispatch.call_user_method_generator Fixtures.wEx Fixtures.metaCount []
      = Except.ok ([0, 1, 2].map Dispatch.StreamItem.item) :=
  ⟨C8_generator_shape_mismatch_usage_errors.1 Fixtures.wEx Fixtures.metaCount
     [] false Fixtures.mCountUp (by decide) (Or.inl rfl),
   C8_generator_shape_mismatch_usage_errors.2.1 Fixtures.wEx Fixtures.metaStream
     [] false Fixtures.mReturnsGen (Dispatch.RVal.genObj [1, 2]) rfl rfl
     (by decide) rfl rfl (by decide) rfl rfl,
   C8_generator_shape_mismatch_usage_errors.2.2.1 Fixtures.wEx Fixtures.metaGreet
     [Dispatch.PyArg.plainArg 3] Fixtures.mGreet 5 rfl rfl (by decide)
     (by decide) rfl,
   C8_generator_shape_mismatch_usage_errors.2.2.2 Fixtures.wEx Fixtures.metaCount
     [] Fixtures.mCountUp [0, 1, 2] rfl rfl (by decide) (by decide) rfl⟩

/-- C9: the draining loop sleeps the fixed grace period before every sample
including the first (each cycle in the trace is sleep, then sample, then a
log line), it returns exactly at the first sample observing zero — within
that same grace-period cycle, with no further sleeps — regardless of any
later samples, and it never returns while every sample is positive, for
sample prefixes of arbitrary length (no internal upper bound on the number
of cycles). -/
theorem C9_drain_loop_returns_iff_zero_sample :
    (∀ (pre rest : List Nat), (∀ x ∈ pre, 0 < x) →
       Drain.drain_ongoing_requests (pre ++ 0 :: rest)
         = (Drain.waitCycleEvents pre
             ++ [Drain.DrainEvent.sleep, Drain.DrainEvent.sample 0,
                 Drain.DrainEvent.logDone], true))
    ∧ (∀ samples : List Nat, (∀ x ∈ samples, 0 < x) →
       (Drain.drain_ongoing_requests samples).2 = false) := by
  constructor
  · intro pre rest
    induction pre with
    | nil =>
        intro _
        simp [Drain.drain_ongoing_requests, Drain.waitCycleEvents]
    | cons n t ih =>
        intro h
        have hn : 0 < n := h n (by simp)
        have ht : ∀ x ∈ t, 0 < x := fun x hx => h x (by simp [hx])
        simp [Drain.drain_ongoing_requests, Drain.waitCycleEvents, hn, ih ht]
  · intro samples
    induction samples with
    | nil => intro _; rfl
    | cons n t ih =>
        intro h
        have hn : 0 < n := h n (by simp)
        have ht : ∀ x ∈ t, 0 < x := fun x hx => h x (by simp [hx])
        simp [Drain.drain_ongoing_requests, hn, ih ht]

/-- C9 witness: two busy cycles then a zero sample produce exactly two
wait cycles and a final sleep-sample-return cycle; a prefix of all-positive
samples has not returned. -/
theorem C9_drain_loop_returns_iff_zero_sample_witness :
    Drain.drain_ongoing_requests [2, 1, 0]
      = (Drain.waitCycleEvents [2, 1]
          ++ [Drain.DrainEvent.sleep, Drain.DrainEvent.sample 0,
              Drain.DrainEvent.logDone], true)
    ∧ (Drain.drain_ongoing_requests [3, 1]).2 = false :=
  ⟨C9_drain_loop_returns_iff_zero_sample.1 [2, 1] [] (by decide),
   C9_drain_loop_returns_iff_zero_sample.2 [3, 1] (by decide)⟩

/-- C10: for an HTTP unary dispatch to a plain (non-ASGI-app) handler whose
resolved method declares zero parameters, the method is invoked with no
positional arguments and no injected keyword — the synthesized `Request`
object is silently dropped — and the dispatch never fails with an arity
error, although passing the `Request` to such a method would be an arity
error. -/
theorem C10_zero_param_http_handler_drops_request :
    ∀ (w : Dispatch.UserCallableWrapper) (meta : Dispatch.RequestMetadata)
      (rawArgs : List Dispatch.PyArg) (kw : Bool) (m : Dispatch.UserMethod),
    meta.is_http_request = true →
    w.callable.isAsgiApp = false →
    Dispatch._get_user_callable_method w meta.call_method = Except.ok m →
    m.isGeneratorFunction = false → m.isAsyncGenFunction = false →
    m.params = [] →
    (Dispatch.call_user_method w meta rawArgs kw).argsPassed = some []
    ∧ (Dispatch.call_user_method w meta rawArgs kw).ctxKwargPassed = false
    ∧ (∀ fn : String, (Dispatch.call_user_method w meta rawArgs kw).result
         ≠ Except.error ⟨fn, Dispatch.DispatchExc.arityError⟩)
    ∧ Dispatch.invokeMethod m [Dispatch.PyArg.requestObj]
        = Except.error Dispatch.DispatchExc.arityError := by
  intro w meta rawArgs kw m hhttp hasgi hres hgf hagf hparams
  refine ⟨?_, ?_, ?_, ?_⟩
  · cases hout : m.outcome with
    | ok v =>
        cases v <;>
          simp [Dispatch.call_user_method, Dispatch.invokeMethod,
            Dispatch.RVal.isGeneratorObject, hres, hhttp, hgf, hagf,
            hparams, hout]
    | error n =>
        simp [Dispatch.call_user_method, Dispatch.invokeMethod, hres,
          hhttp, hgf, hagf, hparams, hout]
  · cases hout : m.outcome with
    | ok v =>
        cases v <;>
          simp [Dispatch.call_user_method, Dispatch.invokeMethod,
            Dispatch.RVal.isGeneratorObject, hres, hhttp, hgf, hagf,
            hparams, hout]
    | error n =>
        simp [Dispatch.call_user_method, Dispatch.invokeMethod, hres,
          hhttp, hgf, hagf, hparams, hout]
  · intro fn
    cases hout : m.outcome with
    | ok v =>
        cases v <;>
          simp [Dispatch.call_user_method, Dispatch.invokeMethod,
            Dispatch.RVal.isGeneratorObject, hres, hhttp, hgf, hagf,
            hparams, hout]
    | error n =>
        simp [Dispatch.call_user_method, Dispatch.invokeMethod, hres,
          hhttp, hgf, hagf, hparams, hout]
  · simp [Dispatch.invokeMethod, hparams]

/-- C10 witness: the zero-parameter handler `ping` dispatched over HTTP is
invoked with no arguments and succeeds, while passing it the synthesized
`Request` would be an arity error. -/
theorem C10_zero_param_http_handler_drops_request_witness :
    (Dispatch.call_user_method Fixtures.wEx Fixtures.metaHttpPing
        [Dispatch.PyArg.scope, Dispatch.PyArg.receive, Dispatch.PyArg.send]
        false).argsPassed = some []
    ∧ (Dispatch.call_user_method Fixtures.wEx Fixtures.metaHttpPing
        [Dispatch.PyArg.scope, Dispatch.PyArg.receive, Dispatch.PyArg.send]
        false).ctxKwargPassed = false
    ∧ (∀ fn : String, (Dispatch.call_user_method Fixtures.wEx Fixtures.metaHttpPing
        [Dispatch.PyArg.scope, Dispatch.PyArg.receive, Dispatch.PyArg.send]
        false).result
         ≠ Except.error ⟨fn, Dispatch.DispatchExc.arityError⟩)
    ∧ Dispatch.invokeMethod Fixtures.mPing [Dispatch.PyArg.requestObj]
        = Except.error Dispatch.DispatchExc.arityError :=
  C10_zero_param_http_handler_drops_request Fixtures.wEx Fixtures.metaHttpPing
    [Dispatch.PyArg.scope, Dispatch.PyArg.receive, Dispatch.PyArg.send]
    false Fixtures.mPing rfl rfl (by decide) rfl rfl rfl

end RayServe
